import Mathlib

/-!
Verification of the DB-Pranger dashboard navigation logic.

The definitions below are shallow embeddings of the navigation code of the
repository: the vertical feed page (`dashboard/app/page.tsx`), the per-line
horizontal carousel (`LineCardWithCarousel.tsx`), the prediction carousel
(`PredictionCarousel.tsx`), and the screens-variant carousels
(`screens/PredictionsScreen.tsx` and the `AllLinesScreen` component).
Scroll offsets, wheel deltas and indices are modelled as integers; JavaScript
`Math.round(x / h)` is modelled by `jsRoundDiv`.
-/

set_option autoImplicit false

namespace DBPranger

/-- JavaScript `Math.round (x / h)` for integer `x` and positive integer `h`:
rounding half toward positive infinity, i.e. `⌊(2*x + h) / (2*h)⌋`. -/
def jsRoundDiv (x h : ℤ) : ℤ := Int.fdiv (2 * x + h) (2 * h)

/-! ## Vertical feed page (`dashboard/app/page.tsx`) -/

/-- Keys handled by the main-feed keyboard handler (page.tsx lines 211-223). -/
inductive FeedKey
  | arrowDown
  | pageDown
  | arrowUp
  | pageUp
  | home
  | endKey
deriving Repr, DecidableEq

/-- The React state and refs of the feed page that the navigation logic
reads and writes: the fetched line count (`sortedLines.length`), the active
card index (`activeIndex`), the programmatic-scroll ref
(`programmaticScrollRef.current`), and the two closure variables of the
scroll poller (`lastScrollTop`, `lastIndex`). -/
structure FeedState where
  numLines : ℕ
  activeIndex : ℤ
  programmatic : Bool
  lastScrollTop : ℤ
  lastIndex : ℤ
deriving Repr, DecidableEq

/-- page.tsx line 41: `totalCards = 4 + sortedLines.length`. -/
def FeedState.totalCards (s : FeedState) : ℕ := 4 + s.numLines

/-- The wrap computation of `navigateTo` (page.tsx lines 49-51):
`targetIndex = index; if (index >= totalCards) targetIndex = 0;
if (index < 0) targetIndex = totalCards - 1;`. -/
def navigateToTarget (index : ℤ) (totalCards : ℕ) : ℤ :=
  let t1 := if (totalCards : ℤ) ≤ index then 0 else index
  if index < 0 then (totalCards : ℤ) - 1 else t1

/-- `navigateTo` (page.tsx lines 44-70): wraps the requested index, sets the
programmatic-scroll ref, updates `activeIndex`, and issues a smooth scroll to
`targetIndex * cardHeight` (the scroll container is not part of React state).
The `setTimeout` that later resets the ref is modelled by the separate
`timerFire` step. -/
def FeedState.navigateTo (s : FeedState) (index : ℤ) : FeedState :=
  { s with
    activeIndex := navigateToTarget index s.totalCards
    programmatic := true }

/-- Expiry of the `setTimeout` scheduled by `navigateTo`
(page.tsx lines 67-69): resets the programmatic-scroll ref. -/
def FeedState.timerFire (s : FeedState) : FeedState :=
  { s with programmatic := false }

/-- The wheel handler of the feed page (page.tsx lines 125-133): returns
immediately while the programmatic ref is set; otherwise, if scrolling down
(`deltaY > 0`) at the last card, calls `navigateTo(0)`; any other wheel event
is left to native scrolling and changes no React state. -/
def FeedState.wheel (s : FeedState) (deltaY : ℤ) : FeedState :=
  if s.programmatic then s
  else if 0 < deltaY ∧ s.activeIndex = (s.totalCards : ℤ) - 1 then
    s.navigateTo 0
  else s

/-- The main-feed branch of the keyboard handler (page.tsx lines 211-223). -/
def FeedState.keyDown (s : FeedState) (k : FeedKey) : FeedState :=
  match k with
  | .arrowDown => s.navigateTo (s.activeIndex + 1)
  | .pageDown => s.navigateTo (s.activeIndex + 1)
  | .arrowUp => s.navigateTo (s.activeIndex - 1)
  | .pageUp => s.navigateTo (s.activeIndex - 1)
  | .home => s.navigateTo 0
  | .endKey => s.navigateTo ((s.totalCards : ℤ) - 1)

/-- One pass of `pollScrollPosition` (page.tsx lines 81-110): skipped while the
programmatic ref is set; otherwise, when the scroll position moved by more than
5 pixels, it records the new position, derives
`round(scrollTop / cardHeight)` (guarding against `cardHeight = 0`), clamps it
to `[0, totalCards - 1]` and writes it to `activeIndex` when it differs from
the poller's last index. -/
def FeedState.poll (s : FeedState) (scrollTop cardHeight : ℤ) : FeedState :=
  if s.programmatic then s
  else if |scrollTop - s.lastScrollTop| ≤ 5 then s
  else
    let s1 := { s with lastScrollTop := scrollTop }
    if cardHeight = 0 then s1
    else
      let newIndex := jsRoundDiv scrollTop cardHeight
      let clampedIndex := max 0 (min newIndex ((s.totalCards : ℤ) - 1))
      if clampedIndex ≠ s1.lastIndex then
        { s1 with lastIndex := clampedIndex, activeIndex := clampedIndex }
      else s1

/-- An SWR refresh of the line statistics (`useLineStats`, refreshed every
60 s): replaces the fetched lines, hence `sortedLines.length`; page.tsx
adjusts no navigation state when this happens. -/
def FeedState.refresh (s : FeedState) (m : ℕ) : FeedState :=
  { s with numLines := m }

/-- The operations of the feed page, as observable events. -/
inductive FeedEvent
  | navigate (index : ℤ)
  | wheel (deltaY : ℤ)
  | key (k : FeedKey)
  | poll (scrollTop cardHeight : ℤ)
  | refresh (numLines : ℕ)
  | timer
deriving Repr, DecidableEq

/-- Dispatch of one event on the feed page state. -/
def FeedState.step (s : FeedState) : FeedEvent → FeedState
  | .navigate i => s.navigateTo i
  | .wheel d => s.wheel d
  | .key k => s.keyDown k
  | .poll st ch => s.poll st ch
  | .refresh m => s.refresh m
  | .timer => s.timerFire

/-- A sequence of events applied in order. -/
def FeedState.steps (s : FeedState) (es : List FeedEvent) : FeedState :=
  es.foldl FeedState.step s

/-- The state of the feed page at mount: `useState(0)` for the active index,
the programmatic ref initialised to `false`, the poller starting at the
container's initial scroll position 0 with `lastIndex = activeIndex = 0`. -/
def mountState (numLines : ℕ) : FeedState :=
  { numLines := numLines
    activeIndex := 0
    programmatic := false
    lastScrollTop := 0
    lastIndex := 0 }

/-! ## Screens-variant carousels
(`screens/PredictionsScreen.tsx` and `AllLinesScreen`) -/

/-- `scrollToSlide` of `PredictionsScreen` (lines 201-211) and of
`AllLinesScreen` (lines 387-397), which share the same body: the wrap
computation `targetIndex = index; if (index >= totalSlides) targetIndex = 0;
if (index < 0) targetIndex = totalSlides - 1;`, after which the carousel is
scrolled to `targetIndex * clientWidth` and `activeSlide` is set to
`targetIndex`. -/
def scrollToSlideTarget (index : ℤ) (totalSlides : ℕ) : ℤ :=
  let t1 := if (totalSlides : ℤ) ≤ index then 0 else index
  if index < 0 then (totalSlides : ℤ) - 1 else t1

/-- `navigateCarousel` of `PredictionsScreen` (lines 213-219) and of
`AllLinesScreen` (lines 404-410), identical in both: going right from the last
slide requests slide 0, going left from slide 0 requests the last slide,
otherwise the neighbouring slide; the request is passed to `scrollToSlide`.
`right = true` stands for the `"right"` direction argument. -/
def navigateCarousel (activeSlide : ℤ) (totalSlides : ℕ) (right : Bool) : ℤ :=
  if right then
    scrollToSlideTarget
      (if (totalSlides : ℤ) - 1 ≤ activeSlide then 0 else activeSlide + 1)
      totalSlides
  else
    scrollToSlideTarget
      (if activeSlide ≤ 0 then (totalSlides : ℤ) - 1 else activeSlide - 1)
      totalSlides

/-- The wheel handler of `PredictionsScreen` (lines 175-191) and of
`AllLinesScreen` (lines 361-377), identical in both: it acts only when the
horizontal delta strictly dominates (`|Δx| > |Δy|`, otherwise it returns);
at the end of the carousel (`scrollLeft >= maxScroll - 2`) with `Δx > 5` it
scrolls to offset 0, at the start (`scrollLeft <= 2`) with `Δx < -5` it
scrolls to `maxScroll`; in all other cases it does nothing. The result is the
target offset of the issued scroll, if any. -/
def carouselWheel (dx dy scrollLeft slideWidth : ℤ) (totalSlides : ℕ) :
    Option ℤ :=
  if |dx| ≤ |dy| then none
  else
    let maxScroll := slideWidth * ((totalSlides : ℤ) - 1)
    if maxScroll - 2 ≤ scrollLeft ∧ 5 < dx then some 0
    else if scrollLeft ≤ 2 ∧ dx < -5 then some maxScroll
    else none

/-! ## Per-line carousel (`LineCardWithCarousel.tsx`) -/

/-- The navigation-relevant React state of `LineCardWithCarousel`: the number
of fetched journeys (the slide count is `1 + journeys`, line 43) and the
active slide index. -/
structure LCWC where
  journeys : ℕ
  activeSlide : ℤ
deriving Repr, DecidableEq

/-- LineCardWithCarousel.tsx line 43: `totalSlides = 1 + journeys.length`. -/
def LCWC.totalSlides (s : LCWC) : ℕ := 1 + s.journeys

/-- The scroll handler of `LineCardWithCarousel` (lines 76-81): on every
scroll event it sets `activeSlide` to
`min(round(scrollLeft / offsetWidth), totalSlides - 1)`. There is no
programmatic-scroll flag in this component; the handler runs for scrolls the
component itself initiated as well. -/
def LCWC.scrollObserve (s : LCWC) (scrollLeft offsetWidth : ℤ) : LCWC :=
  { s with
    activeSlide :=
      min (jsRoundDiv scrollLeft offsetWidth) ((s.totalSlides : ℤ) - 1) }

/-- `scrollToSlide` of `LineCardWithCarousel` (lines 88-96): issues a smooth
scroll to `index * offsetWidth`; it sets no flag and does not update
`activeSlide` itself. The returned value is the target offset. -/
def LCWC.scrollToSlideOffset (index offsetWidth : ℤ) : ℤ := index * offsetWidth

/-- An SWR refresh of the journeys of the line (`useJourneysByLine`,
refreshed every 60 s): replaces the journey list; the component adjusts
`activeSlide` in no way when this happens. -/
def LCWC.refresh (s : LCWC) (m : ℕ) : LCWC := { s with journeys := m }

/-! ## Pagination dots -/

/-- page.tsx line 298: the feed renders `Math.min(totalCards, 12)` progress
dots, for indices `0 .. count-1`. -/
def feedDotCount (totalCards : ℕ) : ℕ := min totalCards 12

/-- PredictionCarousel.tsx line 184: `Math.min(totalSlides, 12)` dots. -/
def predictionCarouselDotCount (totalSlides : ℕ) : ℕ := min totalSlides 12

/-- LineCardWithCarousel.tsx line 247: `Math.min(totalSlides, 10)` dots. -/
def lineCarouselDotCount (totalSlides : ℕ) : ℕ := min totalSlides 10

/-- AllLinesScreen line 459: `Math.min(totalSlides, 8)` dots. -/
def allLinesDotCount (totalSlides : ℕ) : ℕ := min totalSlides 8

/-! ## Claim C7: wrap invariant for direct index requests -/

/-- C7: for all N ≥ 1, requesting screen index N (one past the last) via
`navigateTo` yields active index 0, and requesting index -1 yields N - 1;
likewise for `scrollToSlide` of the screens-variant carousels. -/
theorem C7_wrap_invariant (N : ℕ) (hN : 1 ≤ N) :
    navigateToTarget (N : ℤ) N = 0 ∧
    navigateToTarget (-1) N = (N : ℤ) - 1 ∧
    scrollToSlideTarget (N : ℤ) N = 0 ∧
    scrollToSlideTarget (-1) N = (N : ℤ) - 1 := by
  unfold navigateToTarget scrollToSlideTarget
  have h0 : ¬ ((N : ℤ) < 0) := by omega
  have h1 : (N : ℤ) ≤ (N : ℤ) := le_refl _
  have h2 : ¬ ((N : ℤ) ≤ -1) := by omega
  simp [h0, h1, h2]

/-- Witness for C7 at N = 3. -/
theorem C7_wrap_invariant_witness :
    navigateToTarget 3 3 = 0 ∧
    navigateToTarget (-1) 3 = 2 ∧
    scrollToSlideTarget 3 3 = 0 ∧
    scrollToSlideTarget (-1) 3 = 2 := by
  have h := C7_wrap_invariant 3 (by norm_num)
  simpa using h

/-! ## Claim C9: axis-dominance classification -/

/-- C9: a wheel event inside a screens-variant carousel whose horizontal delta
does not strictly dominate (`|Δx| ≤ |Δy|`) triggers no carousel scroll and no
carousel wrap: the handler returns before acting, leaving the event free to
page screens vertically. -/
theorem C9_axis_dominance (dx dy scrollLeft slideWidth : ℤ) (totalSlides : ℕ)
    (h : |dx| ≤ |dy|) :
    carouselWheel dx dy scrollLeft slideWidth totalSlides = none := by
  unfold carouselWheel
  simp [h]

/-- Witness for C9 at a concrete event with Δx = 3, Δy = 5. -/
theorem C9_axis_dominance_witness :
    carouselWheel 3 5 0 100 4 = none :=
  C9_axis_dominance 3 5 0 100 4 (by decide)

/-! ## Claim C10: pagination-dot reachability caps -/

/-- C10: dots exist only for indices below the cap - 12 for feed cards and
prediction slides, 10 for line-carousel slides, 8 for all-lines slides - so an
index at or beyond the cap has no dot and cannot be reached by a dot click,
although `navigateTo` and `scrollToSlide` accept it (for an in-range index
they navigate to exactly that index). -/
theorem C10_dot_caps (n i : ℕ) :
    (12 ≤ i → ¬ i < feedDotCount n ∧ ¬ i < predictionCarouselDotCount n) ∧
    (10 ≤ i → ¬ i < lineCarouselDotCount n) ∧
    (8 ≤ i → ¬ i < allLinesDotCount n) ∧
    ((i : ℤ) < (n : ℤ) →
      navigateToTarget (i : ℤ) n = (i : ℤ) ∧
      scrollToSlideTarget (i : ℤ) n = (i : ℤ)) := by
  unfold feedDotCount predictionCarouselDotCount lineCarouselDotCount
    allLinesDotCount navigateToTarget scrollToSlideTarget
  refine ⟨fun h => ⟨by omega, by omega⟩, fun h => by omega, fun h => by omega,
    fun h => ?_⟩
  have h0 : ¬ ((i : ℤ) < 0) := by omega
  have h1 : ¬ ((n : ℤ) ≤ (i : ℤ)) := by omega
  simp [h0, h1]

/-- Witness for C10 at n = 20, i = 13. -/
theorem C10_dot_caps_witness :
    ¬ (13 : ℕ) < feedDotCount 20 ∧
    ¬ (13 : ℕ) < predictionCarouselDotCount 20 ∧
    ¬ (13 : ℕ) < lineCarouselDotCount 20 ∧
    ¬ (13 : ℕ) < allLinesDotCount 20 ∧
    navigateToTarget 13 20 = 13 ∧
    scrollToSlideTarget 13 20 = 13 := by
  have h := C10_dot_caps 20 13
  have h12 := h.1 (by norm_num)
  have h10 := h.2.1 (by norm_num)
  have h8 := h.2.2.1 (by norm_num)
  have hnav := h.2.2.2 (by norm_num)
  exact ⟨h12.1, h12.2, h10, h8, hnav.1, hnav.2⟩

/-! ## Claim C1: exactly-once paging (spec-modelled ScreenNavigator)

The threshold-based wheel accumulator described in the specification
(ScrollIntent, THRESHOLD, the Idle/Locked state machine) appears nowhere in
the sources under `src/`: the feed page variant present there pages via
native scroll snapping, and the second page variant - the one composing the
orphaned `screens/` components, which the specification formalises - is not
among the provided files. The navigator is therefore modelled from the
specification. -/

/-- Modelled from the spec: the tunable accumulated-delta magnitude at which a
wheel transition is accepted, default 80 (missing screens-variant page;
spec section 4.2). -/
def THRESHOLD : ℤ := 80

/-- Modelled from the spec: the two states of the ScreenNavigator state
machine (missing screens-variant page; spec section 4.2). -/
inductive NavState
  | idle
  | locked
deriving Repr, DecidableEq

/-- Modelled from the spec: the ScreenNavigator of the missing screens-variant
page - the active screen index, the transient `ScrollIntent` accumulator and
the Idle/Locked state (spec sections 3 and 4.2). -/
structure ScreenNavigator where
  current : ℤ
  scrollIntent : ℤ
  st : NavState
deriving Repr, DecidableEq

/-- Modelled from the spec: one wheel event in the ScreenNavigator (missing
screens-variant page; spec section 4.2). In `Idle` the delta is added to
`ScrollIntent`; once `|ScrollIntent| ≥ THRESHOLD` a transition is accepted:
`next = current + sign(ScrollIntent)` wrapped modulo N, `ScrollIntent` reset
to 0, state `Locked`. In `Locked` further wheel input only extends the lock
and changes nothing else. -/
def navWheel (N : ℕ) (s : ScreenNavigator) (delta : ℤ) : ScreenNavigator :=
  match s.st with
  | .locked => s
  | .idle =>
    let intent := s.scrollIntent + delta
    if THRESHOLD ≤ |intent| then
      { current := (s.current + Int.sign intent).emod N
        scrollIntent := 0
        st := .locked }
    else
      { s with scrollIntent := intent }

/-- Modelled from the spec: a burst of wheel events processed in order
(missing screens-variant page; spec section 8, P1). -/
def navBurst (N : ℕ) (s : ScreenNavigator) (ds : List ℤ) : ScreenNavigator :=
  ds.foldl (navWheel N) s

lemma navBurst_locked (N : ℕ) (s : ScreenNavigator) (hs : s.st = .locked)
    (ds : List ℤ) : navBurst N s ds = s := by
  induction ds with
  | nil => rfl
  | cons d ds ih =>
    have hstep : navWheel N s d = s := by
      unfold navWheel
      rw [hs]
    simp only [navBurst, List.foldl_cons, hstep] at *
    exact ih

lemma navBurst_pos (N : ℕ) (c : ℤ) (ds : List ℤ) :
    ∀ a : ℤ, 0 ≤ a → a < THRESHOLD → (∀ d ∈ ds, 0 ≤ d) →
    THRESHOLD ≤ a + ds.sum →
    navBurst N ⟨c, a, .idle⟩ ds =
      ⟨(c + 1).emod N, 0, .locked⟩ := by
  induction ds with
  | nil =>
    intro a _ ha2 _ hsum
    simp only [List.sum_nil, add_zero] at hsum
    omega
  | cons d ds ih =>
    intro a ha0 _ hd hsum
    have hd0 : 0 ≤ d := hd d (List.mem_cons_self d ds)
    have hds : ∀ x ∈ ds, 0 ≤ x := fun x hx => hd x (List.mem_cons_of_mem d hx)
    have hstep : navBurst N ⟨c, a, .idle⟩ (d :: ds) =
        navBurst N (navWheel N ⟨c, a, .idle⟩ d) ds := by
      simp [navBurst]
    rw [hstep]
    by_cases hth : THRESHOLD ≤ |a + d|
    · have hpos : 0 < a + d := by
        have := abs_of_nonneg (by omega : (0 : ℤ) ≤ a + d)
        unfold THRESHOLD at hth
        omega
      have hsign : Int.sign (a + d) = 1 := Int.sign_eq_one_of_pos hpos
      have hw : navWheel N ⟨c, a, .idle⟩ d =
          ⟨(c + 1).emod N, 0, .locked⟩ := by
        unfold navWheel
        simp only [if_pos hth, hsign]
      rw [hw, navBurst_locked N _ rfl]
    · have habs : |a + d| = a + d := abs_of_nonneg (by omega)
      rw [habs] at hth
      have hw : navWheel N ⟨c, a, .idle⟩ d =
          ⟨c, a + d, .idle⟩ := by
        unfold navWheel
        rw [if_neg (by rw [habs]; exact hth)]
      rw [hw]
      refine ih (a + d) (by omega) (by omega) hds ?_
      have : (d :: ds).sum = d + ds.sum := List.sum_cons
      omega

lemma navBurst_neg (N : ℕ) (c : ℤ) (ds : List ℤ) :
    ∀ a : ℤ, a ≤ 0 → -THRESHOLD < a → (∀ d ∈ ds, d ≤ 0) →
    a + ds.sum ≤ -THRESHOLD →
    navBurst N ⟨c, a, .idle⟩ ds =
      ⟨(c - 1).emod N, 0, .locked⟩ := by
  induction ds with
  | nil =>
    intro a _ ha2 _ hsum
    simp only [List.sum_nil, add_zero] at hsum
    omega
  | cons d ds ih =>
    intro a ha0 _ hd hsum
    have hd0 : d ≤ 0 := hd d (List.mem_cons_self d ds)
    have hds : ∀ x ∈ ds, x ≤ 0 := fun x hx => hd x (List.mem_cons_of_mem d hx)
    have hstep : navBurst N ⟨c, a, .idle⟩ (d :: ds) =
        navBurst N (navWheel N ⟨c, a, .idle⟩ d) ds := by
      simp [navBurst]
    rw [hstep]
    by_cases hth : THRESHOLD ≤ |a + d|
    · have hneg : a + d < 0 := by
        have := abs_of_nonpos (by omega : a + d ≤ 0)
        unfold THRESHOLD at hth
        omega
      have hsign : Int.sign (a + d) = -1 := Int.sign_eq_neg_one_of_neg hneg
      have hw : navWheel N ⟨c, a, .idle⟩ d =
          ⟨(c - 1).emod N, 0, .locked⟩ := by
        unfold navWheel
        simp only [if_pos hth, hsign]
        rfl
      rw [hw, navBurst_locked N _ rfl]
    · have habs : |a + d| = -(a + d) := abs_of_nonpos (by omega)
      have hth2 : -(a + d) < THRESHOLD := by rw [habs] at hth; omega
      have hw : navWheel N ⟨c, a, .idle⟩ d =
          ⟨c, a + d, .idle⟩ := by
        unfold navWheel
        rw [if_neg (by rw [habs]; omega)]
      rw [hw]
      refine ih (a + d) (by omega) (by unfold THRESHOLD at *; omega) hds ?_
      have : (d :: ds).sum = d + ds.sum := List.sum_cons
      omega

/-- C1 (spec-modelled): a burst of wheel events of one direction whose total
accumulated magnitude reaches THRESHOLD moves the ScreenNavigator, started
idle with empty intent at index i, to exactly one screen further in that
direction (wrapped modulo N), locked, with the intent reset - no matter how
many discrete events compose the burst. -/
theorem C1_exactly_once_paging (N : ℕ) (i : ℤ) (ds : List ℤ) :
    ((∀ d ∈ ds, 0 ≤ d) → THRESHOLD ≤ ds.sum →
      navBurst N ⟨i, 0, .idle⟩ ds = ⟨(i + 1).emod N, 0, .locked⟩) ∧
    ((∀ d ∈ ds, d ≤ 0) → ds.sum ≤ -THRESHOLD →
      navBurst N ⟨i, 0, .idle⟩ ds = ⟨(i - 1).emod N, 0, .locked⟩) := by
  constructor
  · intro hd hsum
    exact navBurst_pos N i ds 0 le_rfl (by unfold THRESHOLD; omega) hd
      (by omega)
  · intro hd hsum
    exact navBurst_neg N i ds 0 le_rfl (by unfold THRESHOLD; omega) hd
      (by omega)

/-- Witness for C1: the spec section 8 scenario - N = 5 screens starting at
screen 0 with deltas [30, 30, 30] (sum 90 ≥ 80) pages to screen 1; an upward
burst [-30, -50] at screen 0 pages to screen 4. -/
theorem C1_exactly_once_paging_witness :
    navBurst 5 ⟨0, 0, .idle⟩ [30, 30, 30] = ⟨1, 0, .locked⟩ ∧
    navBurst 5 ⟨0, 0, .idle⟩ [-30, -50] = ⟨4, 0, .locked⟩ := by
  constructor
  · have h := (C1_exactly_once_paging 5 0 [30, 30, 30]).1
      (by intro d hd; fin_cases hd <;> norm_num) (by norm_num [THRESHOLD])
    simpa using h
  · have h := (C1_exactly_once_paging 5 0 [-30, -50]).2
      (by intro d hd; fin_cases hd <;> norm_num) (by norm_num [THRESHOLD])
    rw [h]
    decide

/-! ## Claim C2: clearing of the programmatic-scroll flag -/

/-- page.tsx lines 66-69: the delay of the `setTimeout` with which
`navigateTo` resets `programmaticScrollRef`, in milliseconds. -/
def progClearDelayMs : ℕ := 1000

/-- The value of `programmaticScrollRef.current` t milliseconds after a
`navigateTo` call (page.tsx lines 53-69): set to `true` at the call and reset
by the fixed-delay `setTimeout`; the reset consults nothing else, in
particular not the scroll position. -/
def progFlagAt (t : ℕ) : Bool := decide (t < progClearDelayMs)

/-- A smooth-scroll trajectory (offset as a function of milliseconds since
`navigateTo`) that eventually settles at the target offset. The browser, not
page.tsx, chooses the trajectory; any settling trajectory is possible. -/
def settlesAt (traj : ℕ → ℤ) (target : ℤ) : Prop :=
  ∃ T, ∀ t, T ≤ t → traj t = target

/-- Claim C2 as stated: for every programmatic transition (every settling
trajectory), whenever the flag transitions from true to false the rendered
offset already equals the target offset. -/
def progFlagClearedOnlyAfterCompletion : Prop :=
  ∀ (traj : ℕ → ℤ) (target : ℤ), settlesAt traj target →
    ∀ t, progFlagAt t = true → progFlagAt (t + 1) = false →
      traj (t + 1) = target

/-- C2 counterexample: a smooth scroll that settles at offset 1500 only at
t = 1500 ms still sees the flag cleared at t = 1000 ms, when the rendered
offset is 1000 ≠ 1500: the fixed 1000 ms timer elapses before the animation
finishes. -/
theorem C2_fixed_timer_counterexample : ¬ progFlagClearedOnlyAfterCompletion := by
  intro h
  have hsettle : settlesAt (fun u => min (u : ℤ) 1500) 1500 := by
    refine ⟨1500, fun t ht => ?_⟩
    have : (1500 : ℤ) ≤ (t : ℤ) := by exact_mod_cast ht
    simp [min_eq_right this]
  have := h (fun u => min (u : ℤ) 1500) 1500 hsettle 999 (by decide) (by decide)
  norm_num at this

/-- C2 amended: the flag is cleared by the fixed 1000 ms `setTimeout` - it is
true exactly at times below 1000 ms, independent of the scroll trajectory -
and there is a settling trajectory whose offset at the clearing instant still
differs from the target. -/
theorem C2_fixed_timer_amended :
    (∀ t, progFlagAt t = false ↔ progClearDelayMs ≤ t) ∧
    (∃ (traj : ℕ → ℤ) (target : ℤ), settlesAt traj target ∧
      progFlagAt progClearDelayMs = false ∧ traj progClearDelayMs ≠ target) := by
  constructor
  · intro t
    simp [progFlagAt, progClearDelayMs]
  · refine ⟨fun u => min (u : ℤ) 1500, 1500, ?_, by decide, by decide⟩
    refine ⟨1500, fun t ht => ?_⟩
    have : (1500 : ℤ) ≤ (t : ℤ) := by exact_mod_cast ht
    simp [min_eq_right this]

/-! ## Claim C3: no observer/animation race -/

/-- Claim C3 as stated: at every reconciliation step taken while the
controller's programmatic scroll is active, the active index is left
unchanged, regardless of the current offset - for the vertical feed navigator
(whose flag is `programmaticScrollRef`) and for the line-card carousel
controller (which, per the spec, is programmatic exactly while a
`scrollToSlide` animation toward `target * offsetWidth` has not yet settled
there). -/
def noObserverAnimationRace : Prop :=
  (∀ (s : FeedState) (scrollTop cardHeight : ℤ), s.programmatic = true →
    s.poll scrollTop cardHeight = s) ∧
  (∀ (s : LCWC) (target offsetWidth pos : ℤ), 0 < offsetWidth →
    pos ≠ LCWC.scrollToSlideOffset target offsetWidth →
    (s.scrollObserve pos offsetWidth).activeSlide = s.activeSlide)

/-- C3 counterexample: the line-card carousel has no programmatic flag at all,
so its scroll handler fires mid-animation: with slide width 100 and 3 slides,
while `scrollToSlide 2` animates from offset 0 toward 200, the intermediate
offset 100 makes the handler set the active slide to 1 ≠ 0. -/
theorem C3_observer_race_counterexample : ¬ noObserverAnimationRace := by
  intro h
  have := h.2 ⟨2, 0⟩ 2 100 100 (by decide)
    (by unfold LCWC.scrollToSlideOffset; decide)
  rw [show ((⟨2, 0⟩ : LCWC).scrollObserve 100 100).activeSlide = 1 from by
    decide] at this
  exact absurd this (by decide)

/-- C3 amended: the vertical feed navigator's poll pass leaves the whole state
unchanged while `programmaticScrollRef` is set, but the line-card carousel has
no programmatic flag: its scroll handler unconditionally recomputes the slide
from the observed offset, so an offset observed mid-programmatic-animation
changes the index (concretely, from 0 to 1 at offset 100 while animating
toward the offset 200 of slide 2). -/
theorem C3_observer_race_amended :
    (∀ (s : FeedState) (scrollTop cardHeight : ℤ), s.programmatic = true →
      s.poll scrollTop cardHeight = s) ∧
    (((⟨2, 0⟩ : LCWC).scrollObserve 100 100).activeSlide = 1 ∧
      LCWC.scrollToSlideOffset 2 100 = 200 ∧ (1 : ℤ) ≠ 0 ∧ (100 : ℤ) ≠ 200) := by
  constructor
  · intro s scrollTop cardHeight h
    unfold FeedState.poll
    rw [h]
    simp
  · exact ⟨by decide, by decide, by decide, by decide⟩

/-- Witness for C3 amended: a concrete poll pass with the flag set. -/
theorem C3_observer_race_amended_witness :
    (⟨3, 2, true, 0, 0⟩ : FeedState).poll 500 100 =
      (⟨3, 2, true, 0, 0⟩ : FeedState) :=
  C3_observer_race_amended.1 ⟨3, 2, true, 0, 0⟩ 500 100 rfl

/-! ## Claim C4: carousel clamp on shrink -/

/-- Claim C4 as stated: when a data refresh shrinks the slide count
(`1 + journeys`) to a value at or below the active slide index, the active
slide index immediately becomes `max(0, count - 1)`. -/
def carouselClampOnShrink : Prop :=
  ∀ (s : LCWC) (j : ℕ), ((1 + j : ℕ) : ℤ) ≤ s.activeSlide →
    (s.refresh j).activeSlide = max 0 (((1 + j : ℕ) : ℤ) - 1)

/-- C4 counterexample: with the active slide at index 4 a refresh that drops
all journeys (slide count 1) leaves the active slide at 4, not at
`max(0, 1 - 1) = 0`. -/
theorem C4_clamp_counterexample : ¬ carouselClampOnShrink := by
  intro h
  have := h ⟨5, 4⟩ 0 (by decide)
  rw [show ((⟨5, 4⟩ : LCWC).refresh 0).activeSlide = 4 from rfl] at this
  exact absurd this (by decide)

/-- C4 amended: a data refresh never adjusts the active slide index, even when
the slide count shrinks below it; the index is clamped to the new count only
at the next scroll event, via `min(round(offset/width), count - 1)`. -/
theorem C4_clamp_amended (s : LCWC) (j : ℕ) (pos w : ℤ) :
    (s.refresh j).activeSlide = s.activeSlide ∧
    (s.refresh j).totalSlides = 1 + j ∧
    ((s.refresh j).scrollObserve pos w).activeSlide =
      min (jsRoundDiv pos w) (((1 + j : ℕ) : ℤ) - 1) := by
  refine ⟨rfl, rfl, ?_⟩
  simp [LCWC.refresh, LCWC.scrollObserve, LCWC.totalSlides]

/-! ## Claim C5: screen-set invariant -/

/-- Claim C5 as stated: starting from mount, the screen count never changes
during a session, and after every operation the active screen index lies in
`[0, N - 1]`. -/
def screenSetInvariant : Prop :=
  ∀ (n0 : ℕ) (es : List FeedEvent),
    ((mountState n0).steps es).totalCards = (mountState n0).totalCards ∧
    0 ≤ ((mountState n0).steps es).activeIndex ∧
    ((mountState n0).steps es).activeIndex <
      (((mountState n0).steps es).totalCards : ℤ)

/-- C5 counterexample: mounted with 5 lines (N = 9), navigating to card 8 and
then receiving a refresh that drops all lines leaves N = 4 ≠ 9 and the active
index at 8, outside `[0, 3]`. -/
theorem C5_screenset_counterexample : ¬ screenSetInvariant := by
  intro h
  have h5 := h 5 [.navigate 8, .refresh 0]
  have hcards : ((mountState 5).steps [.navigate 8, .refresh 0]).totalCards = 4 := by
    decide
  have hidx : ((mountState 5).steps [.navigate 8, .refresh 0]).activeIndex = 8 := by
    decide
  rw [hcards, hidx] at h5
  exact absurd h5.2.2 (by decide)

lemma navigateToTarget_mem (idx : ℤ) (N : ℕ) (hN : 1 ≤ N) :
    0 ≤ navigateToTarget idx N ∧ navigateToTarget idx N < (N : ℤ) := by
  unfold navigateToTarget
  dsimp only
  split
  · omega
  · split <;> omega

lemma poll_activeIndex (s : FeedState) (scrollTop cardHeight : ℤ) :
    (s.poll scrollTop cardHeight).activeIndex = s.activeIndex ∨
    (s.poll scrollTop cardHeight).activeIndex =
      max 0 (min (jsRoundDiv scrollTop cardHeight) ((s.totalCards : ℤ) - 1)) := by
  unfold FeedState.poll
  dsimp only
  split_ifs <;> simp

lemma poll_totalCards (s : FeedState) (scrollTop cardHeight : ℤ) :
    (s.poll scrollTop cardHeight).totalCards = s.totalCards := by
  unfold FeedState.poll
  dsimp only
  split_ifs <;> rfl

/-- C5 amended: the screen count is `4 + (number of fetched lines)` and a data
refresh can change it mid-session; every navigation operation (navigateTo,
wheel, keyboard, poll) itself yields an index inside `[0, N - 1]` for the
N current at that operation (or leaves the index untouched), but a refresh
changes N while leaving the index unchanged, so a shrink can strand it out of
range. -/
theorem C5_screenset_amended (s : FeedState) (i d scrollTop cardHeight : ℤ)
    (k : FeedKey) (m : ℕ) :
    (0 ≤ (s.navigateTo i).activeIndex ∧
      (s.navigateTo i).activeIndex < ((s.navigateTo i).totalCards : ℤ)) ∧
    ((s.wheel d).activeIndex = s.activeIndex ∨
      (0 ≤ (s.wheel d).activeIndex ∧
        (s.wheel d).activeIndex < ((s.wheel d).totalCards : ℤ))) ∧
    (0 ≤ (s.keyDown k).activeIndex ∧
      (s.keyDown k).activeIndex < ((s.keyDown k).totalCards : ℤ)) ∧
    ((s.poll scrollTop cardHeight).activeIndex = s.activeIndex ∨
      (0 ≤ (s.poll scrollTop cardHeight).activeIndex ∧
        (s.poll scrollTop cardHeight).activeIndex <
          ((s.poll scrollTop cardHeight).totalCards : ℤ))) ∧
    ((s.refresh m).activeIndex = s.activeIndex ∧
      (s.refresh m).totalCards = 4 + m) := by
  have hN : 1 ≤ s.totalCards := by unfold FeedState.totalCards; omega
  have hnav : ∀ (idx : ℤ), 0 ≤ (s.navigateTo idx).activeIndex ∧
      (s.navigateTo idx).activeIndex < ((s.navigateTo idx).totalCards : ℤ) :=
    fun idx => navigateToTarget_mem idx s.totalCards hN
  refine ⟨hnav i, ?_, ?_, ?_, rfl, rfl⟩
  · unfold FeedState.wheel
    split_ifs with h1 h2
    · exact Or.inl rfl
    · exact Or.inr (hnav 0)
    · exact Or.inl rfl
  · cases k <;> exact hnav _
  · rcases poll_activeIndex s scrollTop cardHeight with h | h
    · exact Or.inl h
    · refine Or.inr ⟨?_, ?_⟩
      · rw [h]; omega
      · rw [h, poll_totalCards]; omega

/-! ## Claim C6: wheel transitions wrap in both directions -/

/-- Claim C6 as stated: with the programmatic ref clear, a downward wheel
event at the last screen moves the active index to 0, and an upward wheel
event at screen 0 moves it to N - 1. -/
def wheelWrapsBothDirections : Prop :=
  ∀ (s : FeedState) (d : ℤ), s.programmatic = false →
    (0 < d → s.activeIndex = (s.totalCards : ℤ) - 1 →
      (s.wheel d).activeIndex = 0) ∧
    (d < 0 → s.activeIndex = 0 →
      (s.wheel d).activeIndex = (s.totalCards : ℤ) - 1)

/-- C6 counterexample: at screen 0 of a 5-card feed an upward wheel event
(deltaY = -100) leaves the active index at 0 instead of moving it to 4: the
handler only wraps downward at the last card. -/
theorem C6_wheel_wrap_counterexample : ¬ wheelWrapsBothDirections := by
  intro h
  have := (h (mountState 1) (-100) rfl).2 (by decide) rfl
  rw [show ((mountState 1).wheel (-100)).activeIndex = 0 from by decide] at this
  exact absurd this (by decide)

/-- C6 amended: with the programmatic ref clear, a downward wheel event at the
last screen navigates to screen 0 (the only wheel wrap); an upward wheel event
(deltaY < 0) never changes the active index. -/
theorem C6_wheel_wrap_amended (s : FeedState) (d : ℤ) :
    (s.programmatic = false → 0 < d → s.activeIndex = (s.totalCards : ℤ) - 1 →
      (s.wheel d).activeIndex = 0) ∧
    (d < 0 → (s.wheel d).activeIndex = s.activeIndex) := by
  constructor
  · intro hp hd hi
    unfold FeedState.wheel
    rw [if_neg (show ¬ s.programmatic = true by rw [hp]; simp),
      if_pos (show 0 < d ∧ s.activeIndex = (s.totalCards : ℤ) - 1 from ⟨hd, hi⟩)]
    show navigateToTarget 0 s.totalCards = 0
    unfold navigateToTarget
    dsimp only
    rw [if_neg (show ¬ (0 : ℤ) < 0 by omega)]
    split <;> rfl
  · intro hd
    have hcond : ¬ (0 < d ∧ s.activeIndex = (s.totalCards : ℤ) - 1) :=
      fun hc => absurd hc.1 (by omega)
    unfold FeedState.wheel
    by_cases hp : s.programmatic = true
    · rw [if_pos hp]
    · rw [if_neg hp, if_neg hcond]

/-- Witness for C6 amended: a 5-card feed at the last card wraps to 0 on a
downward wheel event, and an upward wheel event at card 4 changes nothing. -/
theorem C6_wheel_wrap_amended_witness :
    ((⟨1, 4, false, 0, 0⟩ : FeedState).wheel 10).activeIndex = 0 ∧
    ((⟨1, 4, false, 0, 0⟩ : FeedState).wheel (-10)).activeIndex = 4 :=
  ⟨(C6_wheel_wrap_amended (⟨1, 4, false, 0, 0⟩ : FeedState) 10).1 rfl
      (by decide) (by decide),
    (C6_wheel_wrap_amended (⟨1, 4, false, 0, 0⟩ : FeedState) (-10)).2
      (by decide)⟩

/-! ## Claim C8: carousel keyboard navigation and wrapping -/

/-- The in-carousel branch of the feed page keyboard handler (page.tsx lines
184-196): the next slide is `max(0, min(currentIndex + direction,
slideCount - 1))` - clamped, never wrapped. `right = true` is ArrowRight. -/
def feedCarouselArrowNext (currentIndex : ℤ) (slideCount : ℕ) (right : Bool) :
    ℤ :=
  let direction : ℤ := if right then 1 else -1
  max 0 (min (currentIndex + direction) ((slideCount : ℤ) - 1))

/-- Claim C8 as stated: in every carousel, ArrowRight/ArrowLeft move the
active slide by exactly ±1, with the edges as no-ops and never a wrap - for
the feed page handler and for the screens-variant `navigateCarousel`. -/
def carouselArrowsNoWrap : Prop :=
  ∀ (i : ℤ) (n : ℕ), 0 ≤ i → i < (n : ℤ) →
    (feedCarouselArrowNext i n true = if i = (n : ℤ) - 1 then i else i + 1) ∧
    (feedCarouselArrowNext i n false = if i = 0 then 0 else i - 1) ∧
    (navigateCarousel i n true = if i = (n : ℤ) - 1 then i else i + 1) ∧
    (navigateCarousel i n false = if i = 0 then 0 else i - 1)

/-- C8 counterexample: in a screens-variant carousel with 3 slides, ArrowRight
at the last slide (index 2) wraps to slide 0 instead of being a no-op. -/
theorem C8_arrow_wrap_counterexample : ¬ carouselArrowsNoWrap := by
  intro h
  have := (h 2 3 (by decide) (by decide)).2.2.1
  rw [show navigateCarousel 2 3 true = 0 from by decide] at this
  exact absurd this (by decide)

/-- C8 amended: the feed page's in-carousel arrow handling clamps to
`[0, slideCount - 1]` with the edges as no-ops and never wraps, while the
screens-variant carousels (PredictionsScreen and AllLinesScreen) do wrap:
ArrowRight at the last slide goes to slide 0 and ArrowLeft at slide 0 goes to
the last slide. -/
lemma scrollToSlideTarget_zero (n : ℕ) : scrollToSlideTarget 0 n = 0 := by
  unfold scrollToSlideTarget
  dsimp only
  rw [if_neg (show ¬ (0 : ℤ) < 0 by omega)]
  split <;> rfl

lemma scrollToSlideTarget_of_mem (j : ℤ) (n : ℕ) (h0 : 0 ≤ j)
    (h1 : j < (n : ℤ)) : scrollToSlideTarget j n = j := by
  unfold scrollToSlideTarget
  dsimp only
  rw [if_neg (show ¬ j < 0 by omega), if_neg (show ¬ (n : ℤ) ≤ j by omega)]

theorem C8_arrow_no_wrap_amended (i : ℤ) (n : ℕ) (h0 : 0 ≤ i)
    (hn : i < (n : ℤ)) :
    (feedCarouselArrowNext i n true = if i = (n : ℤ) - 1 then i else i + 1) ∧
    (feedCarouselArrowNext i n false = if i = 0 then 0 else i - 1) ∧
    (navigateCarousel i n true = if i = (n : ℤ) - 1 then 0 else i + 1) ∧
    (navigateCarousel i n false = if i = 0 then (n : ℤ) - 1 else i - 1) := by
  refine ⟨?_, ?_, ?_, ?_⟩
  · rw [show feedCarouselArrowNext i n true =
        max 0 (min (i + 1) ((n : ℤ) - 1)) from rfl]
    split <;> omega
  · rw [show feedCarouselArrowNext i n false =
        max 0 (min (i + -1) ((n : ℤ) - 1)) from rfl]
    split <;> omega
  · rw [show navigateCarousel i n true =
        scrollToSlideTarget (if (n : ℤ) - 1 ≤ i then 0 else i + 1) n from rfl]
    by_cases hlast : (n : ℤ) - 1 ≤ i
    · rw [if_pos hlast, if_pos (show i = (n : ℤ) - 1 by omega),
        scrollToSlideTarget_zero n]
    · rw [if_neg hlast, if_neg (show ¬ i = (n : ℤ) - 1 by omega),
        scrollToSlideTarget_of_mem (i + 1) n (by omega) (by omega)]
  · rw [show navigateCarousel i n false =
        scrollToSlideTarget (if i ≤ 0 then (n : ℤ) - 1 else i - 1) n from rfl]
    by_cases hfirst : i ≤ 0
    · rw [if_pos hfirst, if_pos (show i = 0 by omega),
        scrollToSlideTarget_of_mem ((n : ℤ) - 1) n (by omega) (by omega)]
    · rw [if_neg hfirst, if_neg (show ¬ i = 0 by omega),
        scrollToSlideTarget_of_mem (i - 1) n (by omega) (by omega)]

/-- Witness for C8 amended at i = 1 in a 3-slide carousel. -/
theorem C8_arrow_no_wrap_amended_witness :
    (feedCarouselArrowNext 1 3 true = 2) ∧
    (feedCarouselArrowNext 1 3 false = 0) ∧
    (navigateCarousel 1 3 true = 2) ∧
    (navigateCarousel 1 3 false = 0) := by
  have h := C8_arrow_no_wrap_amended 1 3 (by decide) (by decide)
  simpa using h

end DBPranger
